import Mathlib

/-!
Verification of `src/database.py` (a thin convenience layer over a MySQL
client) against its natural-language specification.

The Python module is shallowly embedded: pure SQL string assembly becomes
Lean functions on strings and ordered key/value records; the connection /
cursor / transaction lifecycle becomes an explicit trace of database events
(`DbEvent`), with caller-supplied blocks represented by the events they emit
together with their outcome (`Except ExcKind`).  Committed side effects are
recovered from a trace by `committedStmts`, which replays the trace keeping
per-connection pending statements and moving them to the committed list on
`commit`, discarding them on `rollback` or on connection close without
commit (MySQL discards uncommitted work when a non-autocommit connection
closes).
-/

namespace SqlDb

/-- Parameter values bound into a statement (Python passes heterogeneous
values; strings suffice for the properties checked here). -/
abbrev Value := String

/-- An ordered field-name/value record, modelling a Python `dict` with its
insertion order (Python 3.7+ dicts preserve insertion order; re-inserting a
popped key appends it at the end). -/
abbrev Record := List (String × Value)

/-- Kinds of exception that flow through the module: `dbError` is
`mysql.connector.Error` (the only kind `get_cursor` catches), `keyError` is
Python `KeyError` (raised by `dict.pop` on a missing key), `valueError` is
the `ValueError` raised by table-name validation, `otherError` is any other
unrelated exception. -/
inductive ExcKind
  | dbError
  | keyError
  | valueError
  | otherError
deriving DecidableEq, Repr

/-- Observable events on the underlying transport, tagged with a connection
identifier. -/
inductive DbEvent
  | openConn (c : Nat)
  | closeConn (c : Nat)
  | beginTx (c : Nat)
  | execStmt (c : Nat) (query : String) (params : List Value)
  | commit (c : Nat)
  | rollback (c : Nat)
deriving DecidableEq, Repr

/-- State used to replay a trace: statements executed but not yet committed,
per connection, plus the statements whose effects have committed. -/
structure TxState where
  pending : List (Nat × String × List Value)
  committed : List (Nat × String × List Value)
deriving DecidableEq, Repr

/-- One replay step: an executed statement becomes pending on its
connection; `commit` publishes that connection's pending statements;
`rollback` discards them; closing a connection discards anything still
uncommitted on it. -/
def stepTx (s : TxState) : DbEvent → TxState
  | DbEvent.execStmt c q ps => { s with pending := s.pending ++ [(c, q, ps)] }
  | DbEvent.commit c =>
      { pending := s.pending.filter (fun t => t.1 ≠ c),
        committed := s.committed ++ s.pending.filter (fun t => t.1 = c) }
  | DbEvent.rollback c => { s with pending := s.pending.filter (fun t => t.1 ≠ c) }
  | DbEvent.closeConn c => { s with pending := s.pending.filter (fun t => t.1 ≠ c) }
  | _ => s

/-- The statements whose effects are committed after a trace runs. -/
def committedStmts (tr : List DbEvent) : List (Nat × String × List Value) :=
  (tr.foldl stepTx ⟨[], []⟩).committed

/-- Embedding of `DatabaseConnection.get_cursor` (src/database.py:60-81):
opens a fresh connection, runs the caller's block (given here as the events
it emits plus its outcome); `except Error` issues a rollback before
re-raising — only for `mysql.connector.Error`, other exceptions skip that
handler; the `finally` closes cursor and connection on every path.  If the
connect itself fails, no connection exists, so nothing is rolled back or
closed and the connect error propagates. -/
def get_cursor_run {α : Type} (c : Nat) (connectFails : Bool)
    (body : List DbEvent × Except ExcKind α) : List DbEvent × Except ExcKind α :=
  if connectFails then ([], Except.error ExcKind.dbError)
  else
    match body.2 with
    | Except.ok a =>
        (DbEvent.openConn c :: body.1 ++ [DbEvent.closeConn c], Except.ok a)
    | Except.error ExcKind.dbError =>
        (DbEvent.openConn c :: body.1 ++ [DbEvent.rollback c, DbEvent.closeConn c],
         Except.error ExcKind.dbError)
    | Except.error e =>
        (DbEvent.openConn c :: body.1 ++ [DbEvent.closeConn c], Except.error e)

/-- Embedding of `DatabaseConnection.transaction` (src/database.py:229-245):
opens a connection, starts an explicit transaction, runs the block, commits
on normal completion; `except Exception` (any exception kind) rolls back and
re-raises; `finally` closes the connection. -/
def transaction_run {α : Type} (c : Nat) (connectFails : Bool)
    (body : List DbEvent × Except ExcKind α) : List DbEvent × Except ExcKind α :=
  if connectFails then ([], Except.error ExcKind.dbError)
  else
    match body.2 with
    | Except.ok a =>
        (DbEvent.openConn c :: DbEvent.beginTx c :: body.1
           ++ [DbEvent.commit c, DbEvent.closeConn c], Except.ok a)
    | Except.error e =>
        (DbEvent.openConn c :: DbEvent.beginTx c :: body.1
           ++ [DbEvent.rollback c, DbEvent.closeConn c], Except.error e)

/-- Embedding of `execute_query` with `fetch=False` (src/database.py:83-97):
executes one statement inside `get_cursor`, commits, returns the affected
count.  `execFails` says whether `cursor.execute` raises a database error;
`affected` is the server's affected-row count on success. -/
def execute_query_write (c : Nat) (q : String) (ps : List Value)
    (execFails : Bool) (affected : Nat) : List DbEvent × Except ExcKind Nat :=
  get_cursor_run c false
    (if execFails then ([DbEvent.execStmt c q ps], Except.error ExcKind.dbError)
     else ([DbEvent.execStmt c q ps, DbEvent.commit c], Except.ok affected))

/-- Embedding of `execute_query` with `fetch=True` (src/database.py:83-97):
executes one statement inside `get_cursor` and fetches all rows, without
committing.  `rows` is the server's result set on success. -/
def execute_query_read (c : Nat) (q : String) (ps : List Value)
    (execFails : Bool) (rows : List Record) : List DbEvent × Except ExcKind (List Record) :=
  get_cursor_run c false
    (if execFails then ([DbEvent.execStmt c q ps], Except.error ExcKind.dbError)
     else ([DbEvent.execStmt c q ps], Except.ok rows))

/-- Python truthiness of an optional string (`if where:`): `None` and the
empty string are falsy. -/
def truthyStr : Option String → Bool
  | none => false
  | some s => !s.isEmpty

/-- Python truthiness of an optional integer (`if limit:`): `None` and `0`
are falsy. -/
def truthyInt : Option Int → Bool
  | none => false
  | some n => n != 0

/-- Embedding of the query assembly in `select` (src/database.py:130-149):
starts from `SELECT {columns} FROM {table}` and appends WHERE, ORDER BY,
LIMIT, OFFSET in that order, each under Python truthiness of its argument. -/
def select_query (table columns : String) (whereC : Option String)
    (params : List Value) (order_by : Option String)
    (limit offset : Option Int) : String × List Value :=
  let q0 := "SELECT " ++ columns ++ " FROM " ++ table
  let q1 := if truthyStr whereC then q0 ++ " WHERE " ++ whereC.getD "" else q0
  let q2 := if truthyStr order_by then q1 ++ " ORDER BY " ++ order_by.getD "" else q1
  let q3 := if truthyInt limit then q2 ++ " LIMIT " ++ toString (limit.getD 0) else q2
  let q4 := if truthyInt offset then q3 ++ " OFFSET " ++ toString (offset.getD 0) else q3
  (q4, params)

/-- Embedding of the statement built by `update` (src/database.py:151-156):
`UPDATE {table} SET k1 = %s, ... WHERE {where}` with parameters the record's
values followed by the caller's extra where-params. -/
def update_stmt (table : String) (data : Record) (whereC : String)
    (params : List Value) : String × List Value :=
  ("UPDATE " ++ table ++ " SET "
     ++ String.intercalate ", " (data.map (fun kv => kv.1 ++ " = %s"))
     ++ " WHERE " ++ whereC,
   data.map Prod.snd ++ params)

/-- Embedding of the statement built by `delete` (src/database.py:158-164):
soft delete delegates to `update` with the mapping `deleted_at ↦ "NOW()"`
(note: the seven-character string `"NOW()"` is passed as a bound parameter
value, exactly as the source does); hard delete builds a `DELETE` statement. -/
def delete_stmt (table : String) (whereC : String) (params : List Value)
    (soft : Bool) : String × List Value :=
  if soft then update_stmt table [("deleted_at", "NOW()")] whereC params
  else ("DELETE FROM " ++ table ++ " WHERE " ++ whereC, params)

/-- The argument of `insert`: a single record (Python `dict`) or a list of
records. -/
inductive InsertData
  | one (r : Record)
  | many (rs : List Record)

/-- The execution path `insert` takes: early return on empty input, a single
parameterized statement via `execute_query`, or a batch via `execute_many`. -/
inductive ExecPath
  | noop
  | single (query : String) (params : List Value)
  | batch (query : String) (paramList : List (List Value))
deriving DecidableEq, Repr

/-- Embedding of `insert` (src/database.py:107-128): wraps a lone dict into
a one-element list, returns 0 on an empty list, builds the column list and
placeholders from the first record, appends the optional ON DUPLICATE KEY
UPDATE clause (Python truthiness), then takes the single-statement path for
one record and the `execute_many` path otherwise. -/
def insert (table : String) (data : InsertData) (on_duplicate : Option String) : ExecPath :=
  let rs := match data with
    | InsertData.one r => [r]
    | InsertData.many rs => rs
  match rs with
  | [] => ExecPath.noop
  | r0 :: rest =>
    let columns := String.intercalate ", " (r0.map Prod.fst)
    let placeholders := String.intercalate ", " (r0.map (fun _ => "%s"))
    let q0 := "INSERT INTO " ++ table ++ " (" ++ columns ++ ") VALUES (" ++ placeholders ++ ")"
    let q := if truthyStr on_duplicate
      then q0 ++ " ON DUPLICATE KEY UPDATE " ++ on_duplicate.getD "" else q0
    match rest with
    | [] => ExecPath.single q (r0.map Prod.snd)
    | _ => ExecPath.batch q ((r0 :: rest).map (fun r => r.map Prod.snd))

/-- The pagination metadata dictionary returned by `paginate`. -/
structure Pagination where
  page : Nat
  per_page : Nat
  total : Nat
  pages : Nat
  has_next : Bool
  has_prev : Bool
deriving DecidableEq, Repr

/-- Embedding of the offset computation in `paginate`
(src/database.py:267): `offset = (page - 1) * per_page`. -/
def paginate_offset (page per_page : Nat) : Nat := (page - 1) * per_page

/-- Embedding of the metadata computation in `paginate`
(src/database.py:276-286): `pages = (total + per_page - 1) // per_page`,
`has_next = page * per_page < total`, `has_prev = page > 1`. -/
def paginate_pagination (page per_page total : Nat) : Pagination :=
  { page := page
    per_page := per_page
    total := total
    pages := (total + per_page - 1) / per_page
    has_next := decide (page * per_page < total)
    has_prev := decide (page > 1) }

/-- Lookup of a key in a record, modelling Python `dict` access (keys in a
dict are unique, so first match suffices). -/
def recLookup (k : String) : Record → Option Value
  | [] => none
  | (k2, v) :: rest => if k2 = k then some v else recLookup k rest

/-- Removal of a key from a record, modelling the removal part of Python
`dict.pop`. -/
def recErase (k : String) : Record → Record
  | [] => []
  | (k2, v) :: rest => if k2 = k then recErase k rest else (k2, v) :: recErase k rest

/-- Embedding of Python `dict.pop(k)`: returns the key's value together with
the record without it, or `none` when the key is missing (Python raises
`KeyError` then). -/
def recPop (k : String) (r : Record) : Option (Value × Record) :=
  match recLookup k r with
  | none => none
  | some v => some (v, recErase k r)

/-- Embedding of Python `d[k] = v`: overwrites in place when the key is
present, otherwise appends the key at the end of the insertion order. -/
def recSet (r : Record) (k : String) (v : Value) : Record :=
  if (recLookup k r).isSome then r.map (fun kv => if kv.1 = k then (k, v) else kv)
  else r ++ [(k, v)]

/-- Result of a `batch_update` call: the trace of transport events, the
final state of the caller's (mutated in place) records, and the returned
total or the propagated exception. -/
structure BatchResult where
  events : List DbEvent
  records : List Record
  result : Except ExcKind Nat
deriving Repr

/-- Embedding of the loop body of `batch_update` (src/database.py:254-259).
Record `i` is processed by popping the key field (KeyError aborts the loop
with the record unchanged), then — when non-key fields remain — calling
`update`, which goes through `execute_query`/`get_cursor` and therefore
opens its own fresh connection (numbered `i + 1` here) and commits there;
on success the key is re-inserted (at the end of the dict order) and the
affected counts accumulate; if the update raises, the re-insertion is
skipped and the exception propagates.  `execFail i` says whether record
`i`'s UPDATE raises a database error; `af i` is its affected count. -/
def batch_step (table kf : String) (execFail : Nat → Bool) (af : Nat → Nat) :
    Nat → List Record → List DbEvent × List Record × Except ExcKind Nat
  | _, [] => ([], [], Except.ok 0)
  | i, r :: rest =>
    match recPop kf r with
    | none => ([], r :: rest, Except.error ExcKind.keyError)
    | some (v, body) =>
      if body.isEmpty then
        let res := batch_step table kf execFail af (i + 1) rest
        (res.1, recSet body kf v :: res.2.1, res.2.2)
      else
        let stmt := update_stmt table body (kf ++ " = %s") [v]
        let upd := execute_query_write (i + 1) stmt.1 stmt.2 (execFail i) (af i)
        match upd.2 with
        | Except.error e => (upd.1, body :: rest, Except.error e)
        | Except.ok n =>
          let res := batch_step table kf execFail af (i + 1) rest
          (upd.1 ++ res.1, recSet body kf v :: res.2.1,
           match res.2.2 with
           | Except.ok m => Except.ok (n + m)
           | Except.error e => Except.error e)

/-- Embedding of `batch_update` (src/database.py:247-261): early return `0`
on an empty list, otherwise the per-record loop wrapped in the `transaction`
scope, whose own connection is numbered `0` (the loop's updates run on their
own per-call connections, as in the source). -/
def batch_update (table : String) (updates : List Record) (kf : String)
    (execFail : Nat → Bool) (af : Nat → Nat) : BatchResult :=
  if updates.isEmpty then ⟨[], updates, Except.ok 0⟩
  else
    let step := batch_step table kf execFail af 0 updates
    let tx := transaction_run 0 false (step.1, step.2.2)
    ⟨tx.1, step.2.1, tx.2⟩

/-- Embedding of Python `s.replace('_', '').replace('-', '')` on the
character list of a table name. -/
def stripChars (l : List Char) : List Char :=
  l.filter (fun ch => !(ch == '_' || ch == '-'))

/-- Embedding of Python `str.isalnum()`: non-empty and every character
alphanumeric. -/
def pyIsalnumChars (l : List Char) : Bool :=
  !l.isEmpty && l.all Char.isAlphanum

/-- The table-name check shared by `get_table_info` and `drop_table`
(src/database.py:206, 212): `table_name.replace('_', '').replace('-', '').isalnum()`. -/
def validTableName (s : String) : Bool :=
  pyIsalnumChars (stripChars s.data)

/-- The spec's shape predicate, written from its words: the name consists of
alphanumeric characters, hyphens and underscores only.  Kept separate from
`validTableName` (which embeds the source) so the two can be compared. -/
def shapeOnly (s : String) : Bool :=
  s.data.all (fun ch => ch.isAlphanum || ch == '_' || ch == '-')

/-- Embedding of `drop_table` (src/database.py:211-215): raises `ValueError`
before anything touches the transport when the name fails the check,
otherwise runs `DROP TABLE IF EXISTS {name}` through the write path. -/
def drop_table (name : String) (c : Nat) (execFails : Bool) (affected : Nat) :
    List DbEvent × Except ExcKind Nat :=
  if !validTableName name then ([], Except.error ExcKind.valueError)
  else execute_query_write c ("DROP TABLE IF EXISTS " ++ name) [] execFails affected

/-- Embedding of `get_table_info` (src/database.py:205-209): raises
`ValueError` before anything touches the transport when the name fails the
check, otherwise runs `DESCRIBE {name}` through the fetch path. -/
def get_table_info (name : String) (c : Nat) (execFails : Bool) (rows : List Record) :
    List DbEvent × Except ExcKind (List Record) :=
  if !validTableName name then ([], Except.error ExcKind.valueError)
  else execute_query_read c ("DESCRIBE " ++ name) [] execFails rows

/-- An event is a plain statement execution (used to say a caller block
only runs statements, issuing no lifecycle events of its own). -/
def isStmtEvent : DbEvent → Bool
  | DbEvent.execStmt _ _ _ => true
  | _ => false

/-- Number of occurrences of an event in a trace. -/
def countEv (a : DbEvent) : List DbEvent → Nat
  | [] => 0
  | e :: rest => (if e = a then 1 else 0) + countEv a rest

/-- Counting an event distributes over trace concatenation. -/
theorem countEv_append (a : DbEvent) (l m : List DbEvent) :
    countEv a (l ++ m) = countEv a l + countEv a m := by
  induction l with
  | nil => simp [countEv]
  | cons e rest ih => simp [countEv, ih, Nat.add_assoc]

/-- An event absent from a trace has count zero. -/
theorem countEv_eq_zero (a : DbEvent) (l : List DbEvent) (h : a ∉ l) : countEv a l = 0 := by
  induction l with
  | nil => rfl
  | cons e rest ih =>
    have h1 : e ≠ a := fun he => h (he ▸ List.mem_cons_self e rest)
    have h2 : a ∉ rest := fun hm => h (List.mem_cons_of_mem e hm)
    simp [countEv, h1, ih h2]

/-- The last element of a list extended by two elements. -/
theorem getLast_app_pair {α : Type} (l : List α) (a b : α) :
    (l ++ [a, b]).getLast? = some b := by
  have h : l ++ [a, b] = (l ++ [a]) ++ [b] := by simp
  rw [h, List.getLast?_concat]

/-- The last element of a list extended by one element. -/
theorem getLast_app_one {α : Type} (l : List α) (a : α) :
    (l ++ [a]).getLast? = some a :=
  List.getLast?_concat l

/-- Replaying a trace with no commit event publishes nothing new. -/
theorem foldl_stepTx_no_commit (tr : List DbEvent) :
    ∀ s : TxState, (∀ c, DbEvent.commit c ∉ tr) → (tr.foldl stepTx s).committed = s.committed := by
  induction tr with
  | nil => intro s _; rfl
  | cons e rest ih =>
    intro s h
    have hrest : ∀ c, DbEvent.commit c ∉ rest := fun c hc => h c (List.mem_cons_of_mem _ hc)
    rw [List.foldl_cons, ih _ hrest]
    cases e with
    | commit c => exact absurd (List.mem_cons_self _ _) (fun hm => h c hm)
    | openConn c => rfl
    | closeConn c => rfl
    | beginTx c => rfl
    | execStmt c q ps => rfl
    | rollback c => rfl

/-- A trace with no commit event leaves no committed statements. -/
theorem committedStmts_eq_nil (tr : List DbEvent) (h : ∀ c, DbEvent.commit c ∉ tr) :
    committedStmts tr = [] :=
  foldl_stepTx_no_commit tr _ h

/-- Looking a key up after erasing it finds nothing. -/
theorem recLookup_recErase (k : String) (r : Record) : recLookup k (recErase k r) = none := by
  induction r with
  | nil => rfl
  | cons kv rest ih =>
    cases kv with
    | mk k2 v2 =>
      by_cases h : k2 = k
      · simpa [recErase, h] using ih
      · simp [recErase, recLookup, h, ih]

/-- Filtering out underscores and hyphens and then requiring alphanumeric
characters is the same as requiring alphanumeric-or-underscore-or-hyphen. -/
theorem all_stripChars (l : List Char) :
    (stripChars l).all Char.isAlphanum
      = l.all (fun ch => ch.isAlphanum || ch == '_' || ch == '-') := by
  induction l with
  | nil => rfl
  | cons ch rest ih =>
    have hstep : stripChars (ch :: rest)
        = if (ch == '_' || ch == '-') = true then stripChars rest
          else ch :: stripChars rest := by
      simp only [stripChars, List.filter_cons]
      cases h : (ch == '_' || ch == '-') <;> simp [h]
    by_cases hc : (ch == '_' || ch == '-') = true
    · rw [hstep, if_pos hc, ih, List.all_cons]
      have hhead : (ch.isAlphanum || ch == '_' || ch == '-') = true := by
        simp only [Bool.or_eq_true] at hc
        cases hc with
        | inl h => rw [h]; simp
        | inr h => rw [h]; simp
      rw [hhead, Bool.true_and]
    · rw [hstep, if_neg hc, List.all_cons, List.all_cons, ih]
      have hne : (ch == '_' || ch == '-') = false := Bool.eq_false_iff.mpr hc
      simp only [Bool.or_eq_false_iff] at hne
      rw [hne.1, hne.2, Bool.or_false, Bool.or_false]

/-- The source's table-name check accepts exactly the names that fit the
spec's shape (alphanumeric plus underscore/hyphen) and additionally contain
at least one character that is not an underscore or hyphen. -/
theorem validTableName_characterization (s : String) :
    validTableName s = (shapeOnly s && !(stripChars s.data).isEmpty) := by
  simp only [validTableName, pyIsalnumChars, shapeOnly, all_stripChars]
  exact Bool.and_comm _ _

/-- C5: for every `page ≥ 1` and `per_page ≥ 1`, `paginate` computes the
offset as `(page - 1) * per_page`; the reported `pages` equals
`⌈total / per_page⌉` (ceiling division, characterized below as the least `k`
with `total ≤ per_page * k`); `has_next` holds exactly when
`page * per_page < total`; `has_prev` holds exactly when `page > 1`; and at
`total = 25`, `per_page = 10`, `page = 2` it reports `pages = 3`,
`has_next = true`, `has_prev = true`. -/
theorem paginate_spec (page per_page total : Nat)
    (hp : 1 ≤ page) (hpp : 1 ≤ per_page) :
    paginate_offset page per_page = (page - 1) * per_page
    ∧ (paginate_pagination page per_page total).pages = total ⌈/⌉ per_page
    ∧ (∀ k, (paginate_pagination page per_page total).pages ≤ k ↔ total ≤ per_page * k)
    ∧ ((paginate_pagination page per_page total).has_next = true ↔ page * per_page < total)
    ∧ ((paginate_pagination page per_page total).has_prev = true ↔ 1 < page)
    ∧ paginate_pagination 2 10 25
        = { page := 2, per_page := 10, total := 25, pages := 3,
            has_next := true, has_prev := true } := by
  refine ⟨rfl, ?_, ?_, ?_, ?_, rfl⟩
  · rw [Nat.ceilDiv_eq_add_pred_div]; rfl
  · intro k
    have h : total ⌈/⌉ per_page ≤ k ↔ total ≤ per_page * k := ceilDiv_le_iff_le_mul hpp
    rw [Nat.ceilDiv_eq_add_pred_div] at h
    exact h
  · simp [paginate_pagination]
  · simp [paginate_pagination]

/-- C5 witness: the theorem applied at `page = 2`, `per_page = 10`,
`total = 25`. -/
theorem paginate_spec_witness :
    paginate_pagination 2 10 25
        = { page := 2, per_page := 10, total := 25, pages := 3,
            has_next := true, has_prev := true } :=
  (paginate_spec 2 10 25 (by decide) (by decide)).2.2.2.2.2

/-- C6: `insert` of a single record and `insert` of the one-element list of
the same record build the same SQL text with the same bound parameters and
take the same single-statement execution path (so affected-row count and
resulting row state coincide). -/
theorem insert_single_eq_singleton_list (t : String) (r : Record) (od : Option String) :
    insert t (InsertData.one r) od = insert t (InsertData.many [r]) od
    ∧ ∃ q ps, insert t (InsertData.one r) od = ExecPath.single q ps :=
  ⟨rfl, _, _, rfl⟩

/-- C7: `select` assembles its clauses in the fixed order WHERE, ORDER BY,
LIMIT, OFFSET, omitting exactly the clauses whose argument is absent or
Python-falsy; in particular a supplied limit or offset of `0` and a
supplied empty `where` string behave as absent, and the bound parameters
are passed through unchanged. -/
theorem select_clause_assembly (t c : String) (w : Option String) (ps : List Value)
    (ob : Option String) (lim off : Option Int) :
    (select_query t c w ps ob lim off).1
      = "SELECT " ++ c ++ " FROM " ++ t
        ++ (if truthyStr w then " WHERE " ++ w.getD "" else "")
        ++ (if truthyStr ob then " ORDER BY " ++ ob.getD "" else "")
        ++ (if truthyInt lim then " LIMIT " ++ toString (lim.getD 0) else "")
        ++ (if truthyInt off then " OFFSET " ++ toString (off.getD 0) else "")
    ∧ select_query t c w ps ob (some 0) off = select_query t c w ps ob none off
    ∧ select_query t c w ps ob lim (some 0) = select_query t c w ps ob lim none
    ∧ select_query t c (some "") ps ob lim off = select_query t c none ps ob lim off
    ∧ (select_query t c w ps ob lim off).2 = ps := by
  refine ⟨?_, rfl, rfl, rfl, rfl⟩
  simp only [select_query]
  split_ifs <;> simp [String.append_assoc]

/-- C9: `delete` with `soft = true` issues no DELETE statement — it
delegates to `update` with the mapping `deleted_at ↦ "NOW()"`, where
`"NOW()"` is a *bound parameter value* (the literal seven-character string,
never evaluated server-side as the SQL function); `soft = false` issues a
DELETE.  At the failing input the soft path produces
`UPDATE users SET deleted_at = %s WHERE id = %s` with parameters
`["NOW()", "5"]`. -/
theorem delete_soft_binds_literal_string :
    (∀ t w ps, delete_stmt t w ps true = update_stmt t [("deleted_at", "NOW()")] w ps
      ∧ delete_stmt t w ps false = ("DELETE FROM " ++ t ++ " WHERE " ++ w, ps))
    ∧ delete_stmt "users" "id = %s" ["5"] true
        = ("UPDATE users SET deleted_at = %s WHERE id = %s", ["NOW()", "5"]) :=
  ⟨fun t w ps => ⟨rfl, rfl⟩, rfl⟩

/-- C8 counterexample: the name `"_"` consists of allowed shape characters
only (underscores/hyphens are allowed by the claimed shape), yet
`drop_table` rejects it with a validation error, refuting the claim that
every name passing the shape check avoids the validation error. -/
theorem drop_table_rejects_shape_passing_name :
    shapeOnly "_" = true
    ∧ drop_table "_" 0 false 0 = ([], Except.error ExcKind.valueError) := by
  exact ⟨by decide, rfl⟩

/-- C8 (amended): the source check accepts a name iff it fits the shape
(alphanumeric/underscore/hyphen only) *and* at least one character remains
after removing underscores and hyphens.  Any rejected name makes
`drop_table` and `get_table_info` raise the validation error with no
transport event at all (no connection opened, no statement sent); any
accepted name never raises the validation error, and `drop_table` then
begins by opening a connection. -/
theorem table_name_validation (name : String) (c : Nat) (ef : Bool) (af : Nat)
    (rows : List Record) :
    (validTableName name = (shapeOnly name && !(stripChars name.data).isEmpty))
    ∧ (validTableName name = false →
        drop_table name c ef af = ([], Except.error ExcKind.valueError)
        ∧ get_table_info name c ef rows = ([], Except.error ExcKind.valueError))
    ∧ (validTableName name = true →
        (drop_table name c ef af).2 ≠ Except.error ExcKind.valueError
        ∧ (get_table_info name c ef rows).2 ≠ Except.error ExcKind.valueError
        ∧ (drop_table name c ef af).1.head? = some (DbEvent.openConn c)) := by
  refine ⟨validTableName_characterization name, fun h => ?_, fun h => ?_⟩
  · constructor <;> simp [drop_table, get_table_info, h]
  · refine ⟨?_, ?_, ?_⟩ <;>
      cases ef <;>
        simp [drop_table, get_table_info, h, execute_query_write,
          execute_query_read, get_cursor_run]

/-- C8 witness: the amended theorem applied at the spec's injection-shaped
name (rejected with no transport event) and at a well-formed name
(accepted). -/
theorem table_name_validation_witness :
    drop_table "users; DROP TABLE other" 0 false 0 = ([], Except.error ExcKind.valueError)
    ∧ (drop_table "users_2" 0 false 0).2 ≠ Except.error ExcKind.valueError :=
  ⟨((table_name_validation "users; DROP TABLE other" 0 false 0 []).2.1 (by decide)).1,
   ((table_name_validation "users_2" 0 false 0 []).2.2 (by decide)).1⟩

/-- C2 counterexample: a block that raises an unrelated (non-`Error`)
exception after executing a statement: the connection was opened, the
failure propagates, but no rollback event appears in the trace —
`get_cursor`'s `except Error` handler does not run for it. -/
theorem get_cursor_no_rollback_on_unrelated_exception :
    (get_cursor_run 0 false ([DbEvent.execStmt 0 "UPDATE t SET a = %s" ["1"]],
        (Except.error ExcKind.otherError : Except ExcKind Nat))).2
      = Except.error ExcKind.otherError
    ∧ DbEvent.openConn 0 ∈ (get_cursor_run 0 false
        ([DbEvent.execStmt 0 "UPDATE t SET a = %s" ["1"]],
         (Except.error ExcKind.otherError : Except ExcKind Nat))).1
    ∧ DbEvent.rollback 0 ∉ (get_cursor_run 0 false
        ([DbEvent.execStmt 0 "UPDATE t SET a = %s" ["1"]],
         (Except.error ExcKind.otherError : Except ExcKind Nat))).1 := by
  refine ⟨rfl, ?_, ?_⟩ <;> decide

/-- C2 (amended): for a block that only executes statements under the
scoped cursor, the failure always propagates unchanged and the connection
is always closed last, but a rollback is issued if and only if the failure
is a database `Error` (the only kind `except Error` catches); in every
failing case — database error or unrelated exception — no statement of the
call is left committed, because nothing commits the connection before it
closes. -/
theorem get_cursor_rollback_policy (c : Nat) (evs : List DbEvent)
    (out : Except ExcKind Nat)
    (hstmt : ∀ e ∈ evs, isStmtEvent e = true) :
    ((get_cursor_run c false (evs, out)).2 = out)
    ∧ (DbEvent.rollback c ∈ (get_cursor_run c false (evs, out)).1
        ↔ out = Except.error ExcKind.dbError)
    ∧ ((get_cursor_run c false (evs, out)).1.getLast? = some (DbEvent.closeConn c))
    ∧ (∀ e, out = Except.error e →
        committedStmts (get_cursor_run c false (evs, out)).1 = []) := by
  have hnr : DbEvent.rollback c ∉ evs := fun hm => by
    have := hstmt _ hm
    simp [isStmtEvent] at this
  have hnc : ∀ c2, DbEvent.commit c2 ∉ evs := fun c2 hm => by
    have := hstmt _ hm
    simp [isStmtEvent] at this
  cases out with
  | ok a =>
    refine ⟨rfl, ?_, ?_, ?_⟩
    · simp [get_cursor_run, hnr]
    · simpa [get_cursor_run] using getLast_app_one (DbEvent.openConn c :: evs) (DbEvent.closeConn c)
    · intro e he
      exact absurd he (by simp)
  | error e =>
    cases e with
    | dbError =>
      refine ⟨rfl, ?_, ?_, ?_⟩
      · simp [get_cursor_run]
      · simpa [get_cursor_run] using
          getLast_app_pair (DbEvent.openConn c :: evs) (DbEvent.rollback c) (DbEvent.closeConn c)
      · intro e2 _
        refine committedStmts_eq_nil _ fun c2 => ?_
        simp [get_cursor_run, hnc c2]
    | keyError =>
      refine ⟨rfl, ?_, ?_, ?_⟩
      · simp [get_cursor_run, hnr]
      · simpa [get_cursor_run] using getLast_app_one (DbEvent.openConn c :: evs) (DbEvent.closeConn c)
      · intro e2 _
        refine committedStmts_eq_nil _ fun c2 => ?_
        simp [get_cursor_run, hnc c2]
    | valueError =>
      refine ⟨rfl, ?_, ?_, ?_⟩
      · simp [get_cursor_run, hnr]
      · simpa [get_cursor_run] using getLast_app_one (DbEvent.openConn c :: evs) (DbEvent.closeConn c)
      · intro e2 _
        refine committedStmts_eq_nil _ fun c2 => ?_
        simp [get_cursor_run, hnc c2]
    | otherError =>
      refine ⟨rfl, ?_, ?_, ?_⟩
      · simp [get_cursor_run, hnr]
      · simpa [get_cursor_run] using getLast_app_one (DbEvent.openConn c :: evs) (DbEvent.closeConn c)
      · intro e2 _
        refine committedStmts_eq_nil _ fun c2 => ?_
        simp [get_cursor_run, hnc c2]

/-- C2 witness: the amended theorem applied at a block that executes one
statement and raises a database error. -/
theorem get_cursor_rollback_policy_witness :
    DbEvent.rollback 3 ∈ (get_cursor_run 3 false
        ([DbEvent.execStmt 3 "SELECT 1" []],
         (Except.error ExcKind.dbError : Except ExcKind Nat))).1
      ↔ (Except.error ExcKind.dbError : Except ExcKind Nat)
          = Except.error ExcKind.dbError :=
  (get_cursor_rollback_policy 3 [DbEvent.execStmt 3 "SELECT 1" []]
    (Except.error ExcKind.dbError) (by decide)).2.1

/-- C3: for a block that only executes statements, under both the scoped
cursor and the transaction scope the trace opens and closes the
per-operation connection the same number of times on every path (success,
database error, or unrelated exception; zero times when the connect itself
fails), and whenever the connect succeeds the connection is closed exactly
once. -/
theorem connections_closed_exactly_once (c : Nat) (cf : Bool) (evs : List DbEvent)
    (out : Except ExcKind Nat)
    (hstmt : ∀ e ∈ evs, isStmtEvent e = true) :
    (countEv (DbEvent.closeConn c) (get_cursor_run c cf (evs, out)).1
        = countEv (DbEvent.openConn c) (get_cursor_run c cf (evs, out)).1)
    ∧ (countEv (DbEvent.closeConn c) (transaction_run c cf (evs, out)).1
        = countEv (DbEvent.openConn c) (transaction_run c cf (evs, out)).1)
    ∧ (cf = false →
        countEv (DbEvent.closeConn c) (get_cursor_run c cf (evs, out)).1 = 1
        ∧ countEv (DbEvent.closeConn c) (transaction_run c cf (evs, out)).1 = 1) := by
  have hno : DbEvent.openConn c ∉ evs := fun hm => by
    have := hstmt _ hm
    simp [isStmtEvent] at this
  have hncl : DbEvent.closeConn c ∉ evs := fun hm => by
    have := hstmt _ hm
    simp [isStmtEvent] at this
  have ho := countEv_eq_zero (DbEvent.openConn c) evs hno
  have hc := countEv_eq_zero (DbEvent.closeConn c) evs hncl
  cases cf with
  | true => exact ⟨rfl, rfl, fun h => by cases h⟩
  | false =>
    cases out with
    | ok a =>
      refine ⟨?_, ?_, fun _ => ⟨?_, ?_⟩⟩ <;>
        simp [get_cursor_run, transaction_run, countEv, countEv_append, ho, hc]
    | error e =>
      cases e <;>
        refine ⟨?_, ?_, fun _ => ⟨?_, ?_⟩⟩ <;>
          simp [get_cursor_run, transaction_run, countEv, countEv_append, ho, hc]

/-- C3 witness: the theorem applied at a block that executes one statement
and succeeds, with the connect succeeding. -/
theorem connections_closed_exactly_once_witness :
    countEv (DbEvent.closeConn 0) (get_cursor_run 0 false
        ([DbEvent.execStmt 0 "SELECT 1" []], (Except.ok 1 : Except ExcKind Nat))).1 = 1
    ∧ countEv (DbEvent.closeConn 0) (transaction_run 0 false
        ([DbEvent.execStmt 0 "SELECT 1" []], (Except.ok 1 : Except ExcKind Nat))).1 = 1 :=
  (connections_closed_exactly_once 0 false [DbEvent.execStmt 0 "SELECT 1" []]
    (Except.ok 1) (by decide)).2.2 rfl

/-- C4: for every block run under the transaction scope, the trace first
opens one connection and begins an explicit transaction on it; if the block
completes normally the transaction is committed (and never rolled back); if
the block raises any exception whatsoever it is rolled back (and never
committed) and the same exception is re-raised; and in both cases the very
last event is closing that connection. -/
theorem transaction_scope_spec (c : Nat) (evs : List DbEvent) (out : Except ExcKind Nat)
    (hstmt : ∀ e ∈ evs, isStmtEvent e = true) :
    ((transaction_run c false (evs, out)).2 = out)
    ∧ ((transaction_run c false (evs, out)).1.take 2
        = [DbEvent.openConn c, DbEvent.beginTx c])
    ∧ (∀ a, out = Except.ok a →
        (transaction_run c false (evs, out)).1
          = DbEvent.openConn c :: DbEvent.beginTx c :: evs
              ++ [DbEvent.commit c, DbEvent.closeConn c]
        ∧ DbEvent.rollback c ∉ (transaction_run c false (evs, out)).1)
    ∧ (∀ e, out = Except.error e →
        (transaction_run c false (evs, out)).1
          = DbEvent.openConn c :: DbEvent.beginTx c :: evs
              ++ [DbEvent.rollback c, DbEvent.closeConn c]
        ∧ DbEvent.commit c ∉ (transaction_run c false (evs, out)).1)
    ∧ ((transaction_run c false (evs, out)).1.getLast? = some (DbEvent.closeConn c)) := by
  have hnr : DbEvent.rollback c ∉ evs := fun hm => by
    have := hstmt _ hm
    simp [isStmtEvent] at this
  have hnc : DbEvent.commit c ∉ evs := fun hm => by
    have := hstmt _ hm
    simp [isStmtEvent] at this
  cases out with
  | ok a =>
    refine ⟨rfl, rfl, fun b hb => ⟨rfl, ?_⟩, fun e he => absurd he (by simp), ?_⟩
    · simp [transaction_run, hnr]
    · simpa [transaction_run] using
        getLast_app_pair (DbEvent.openConn c :: DbEvent.beginTx c :: evs)
          (DbEvent.commit c) (DbEvent.closeConn c)
  | error e =>
    refine ⟨rfl, rfl, fun b hb => absurd hb (by simp), fun e2 he => ⟨rfl, ?_⟩, ?_⟩
    · simp [transaction_run, hnc]
    · simpa [transaction_run] using
        getLast_app_pair (DbEvent.openConn c :: DbEvent.beginTx c :: evs)
          (DbEvent.rollback c) (DbEvent.closeConn c)

/-- C4 witness: the theorem applied at a block that executes one statement
and raises an unrelated exception: the transaction is rolled back, the
exception re-raised, the connection closed last. -/
theorem transaction_scope_spec_witness :
    (transaction_run 0 false ([DbEvent.execStmt 0 "SELECT 1" []],
        (Except.error ExcKind.otherError : Except ExcKind Nat))).2
      = Except.error ExcKind.otherError :=
  (transaction_scope_spec 0 [DbEvent.execStmt 0 "SELECT 1" []]
    (Except.error ExcKind.otherError) (by decide)).1

/-- C1 (evaluated at its failing input): `batch_update` over two records
where the second record's UPDATE raises a database error returns the error,
but the first record's UPDATE statement remains committed — it ran through
`execute_query`, which opens its own connection and commits there, outside
the transaction connection that `batch_update` opens and rolls back.  The
claimed full rollback (zero records updated) does not hold: exactly one
committed UPDATE survives. -/
theorem batch_update_partial_commit :
    (batch_update "users" [[("id", "1"), ("name", "a")], [("id", "2"), ("name", "b")]]
        "id" (fun i => i == 1) (fun _ => 1)).result = Except.error ExcKind.dbError
    ∧ committedStmts (batch_update "users"
        [[("id", "1"), ("name", "a")], [("id", "2"), ("name", "b")]]
        "id" (fun i => i == 1) (fun _ => 1)).events
      = [(1, "UPDATE users SET name = %s WHERE id = %s", ["a", "1"])] :=
  ⟨rfl, rfl⟩

/-- C10: `batch_update` mutates the caller's records in place.  For a
record that contains the key field and at least one other field, the key is
popped before the record's UPDATE — the statement's SET columns and bound
parameters are built from the remaining fields only, with the key value
bound solely in the WHERE clause — and re-inserted afterwards, which moves
it to the last position of the record's field order; for a record lacking
the key field, the pop raises a `KeyError` inside the transaction scope
(which rolls back its connection and re-raises). -/
theorem batch_update_frame (table kf : String) (r : Record) (v : Value) (af : Nat → Nat) :
    (recLookup kf r = some v → recErase kf r ≠ [] →
      batch_update table [r] kf (fun _ => false) af =
        { events := [DbEvent.openConn 0, DbEvent.beginTx 0,
                     DbEvent.openConn 1,
                     DbEvent.execStmt 1
                       (update_stmt table (recErase kf r) (kf ++ " = %s") [v]).1
                       (update_stmt table (recErase kf r) (kf ++ " = %s") [v]).2,
                     DbEvent.commit 1, DbEvent.closeConn 1,
                     DbEvent.commit 0, DbEvent.closeConn 0],
          records := [recErase kf r ++ [(kf, v)]],
          result := Except.ok (af 0) })
    ∧ (recLookup kf r = none →
        batch_update table [r] kf (fun _ => false) af =
          { events := [DbEvent.openConn 0, DbEvent.beginTx 0,
                       DbEvent.rollback 0, DbEvent.closeConn 0],
            records := [r],
            result := Except.error ExcKind.keyError }) := by
  constructor
  · intro hv hne
    have hE : (recErase kf r).isEmpty = false := by
      cases hErase : recErase kf r with
      | nil => exact absurd hErase hne
      | cons x xs => rfl
    have hset : recSet (recErase kf r) kf v = recErase kf r ++ [(kf, v)] := by
      simp [recSet, recLookup_recErase]
    simp [batch_update, batch_step, recPop, hv, hE, hset,
      execute_query_write, get_cursor_run, transaction_run]
  · intro hv
    simp [batch_update, batch_step, recPop, hv, transaction_run]

/-- C10 witness: the theorem applied to a record `{id: 1, name: a}` with
key field `id` (the key moves to the end, the UPDATE sets only `name`), and
to a record `{name: a}` lacking the key field (KeyError, rolled back). -/
theorem batch_update_frame_witness :
    batch_update "users" [[("id", "1"), ("name", "a")]] "id" (fun _ => false) (fun _ => 2)
      = { events := [DbEvent.openConn 0, DbEvent.beginTx 0,
                     DbEvent.openConn 1,
                     DbEvent.execStmt 1 "UPDATE users SET name = %s WHERE id = %s" ["a", "1"],
                     DbEvent.commit 1, DbEvent.closeConn 1,
                     DbEvent.commit 0, DbEvent.closeConn 0],
          records := [[("name", "a"), ("id", "1")]],
          result := Except.ok 2 }
    ∧ batch_update "users" [[("name", "a")]] "id" (fun _ => false) (fun _ => 2)
      = { events := [DbEvent.openConn 0, DbEvent.beginTx 0,
                     DbEvent.rollback 0, DbEvent.closeConn 0],
          records := [[("name", "a")]],
          result := Except.error ExcKind.keyError } :=
  ⟨(batch_update_frame "users" "id" [("id", "1"), ("name", "a")] "1" (fun _ => 2)).1
      rfl (by decide),
   (batch_update_frame "users" "id" [("name", "a")] "1" (fun _ => 2)).2 rfl⟩

end SqlDb
